import Mathlib

/-!
Shallow embedding of the freediag KWP6227 L2 protocol driver
(src/scantool/diag_l2_kwp6227.c) and verification of its specified
properties.

The driver's observable behaviour (frames handed to the physical layer,
messages delivered to callbacks, allocations, frees, sleeps, the values
left in the connection object) is modelled as pure functions from the
driver's inputs plus an explicit environment (the results the physical
layer / allocator would return).  C undefined behaviour reachable in the
modelled code is made explicit with a distinguished `Res.undef` outcome;
the two reachable UB sources are dereferencing the null session-state
pointer, and freeing the indeterminate non-null reply pointer that the
request transaction's uninitialised local can hand back.
-/

/-- Modelled from the spec: error codes live in diag_err.h, which is not
under src/.  Per the spec they are structured error kinds; every caller in
the modelled code tests only `rv < 0` and compares kinds, so they are
modelled as distinct negative integers. -/
def DIAG_ERR_GENERAL : Int := -1

/-- Modelled from the spec: length-violation error kind (payload outside 1..14). -/
def DIAG_ERR_BADLEN : Int := -2

/-- Modelled from the spec: allocation-failure error kind. -/
def DIAG_ERR_NOMEM : Int := -3

/-- Modelled from the spec: init-mode-unsupported error kind. -/
def DIAG_ERR_INIT_NOTSUPP : Int := -4

/-- Modelled from the spec: capability-unsupported error kind. -/
def DIAG_ERR_PROTO_NOTSUPP : Int := -5

/-- Modelled from the spec: wrong-keybytes error kind. -/
def DIAG_ERR_WRONGKB : Int := -6

/-- Modelled from the spec: a propagated transport error (e.g. receive
timeout), used only as a concrete sample transport failure in witnesses. -/
def DIAG_ERR_TIMEOUT : Int := -7

/-- diag_iseterr logs the error location and returns the code unchanged. -/
def diag_iseterr (code : Int) : Int := code

/-- Modelled from the spec: the frame-delimited format tag DIAG_FMT_FRAMED
from diag.h (not under src/); only its identity matters. -/
def DIAG_FMT_FRAMED : Nat := 1

/-- Modelled from the spec: init-mode selector constants from diag_l2.h
(not under src/).  The driver only distinguishes the slow-init mode from
every other mode via `flags & DIAG_L2_TYPE_INITMASK`. -/
def DIAG_L2_TYPE_INITMASK : Nat := 7

/-- Modelled from the spec: the slow-init (5-baud) init-mode selector. -/
def DIAG_L2_TYPE_SLOWINIT : Nat := 0

/-- Parity selector, from enum diag_parity. -/
inductive diag_parity where
  | diag_par_e : diag_parity
  | diag_par_o : diag_parity
  | diag_par_n : diag_parity
deriving DecidableEq, Repr

open diag_parity

/-- with_parity from the source: replace a byte's msb with a parity bit.
`p` starts at 1 for odd parity, else 0; seven times `p ^= c; p <<= 1`
in uint8_t arithmetic; the result is `(c & 0x7f) | (p & 0x80)`. -/
def with_parity (c : Nat) (eo : diag_parity) : Nat :=
  let p0 : Nat := if eo = diag_par_o then 1 else 0
  let step : Nat → Nat := fun p => ((p ^^^ c) <<< 1) % 256
  let p := step (step (step (step (step (step (step p0))))))
  (c &&& 0x7f) ||| (p &&& 0x80)

/-- XOR of the low seven bits of a byte: the plain parity of `c`'s low
7 bits, used to state the parity property. -/
def parity7 (c : Nat) : Nat :=
  ((c >>> 0) ^^^ (c >>> 1) ^^^ (c >>> 2) ^^^ (c >>> 3) ^^^
   (c >>> 4) ^^^ (c >>> 5) ^^^ (c >>> 6)) &&& 1

/-- The parity seed: 1 for odd parity, 0 otherwise, as in the source's
initialisation of `p`. -/
def paritySeed (eo : diag_parity) : Nat := if eo = diag_par_o then 1 else 0

/-- struct diag_msg, restricted to the fields the driver touches.  The C
struct carries `len` and `data` separately with `len` the number of valid
payload bytes; here `data.length` plays the role of `len`. -/
structure diag_msg where
  data : List Nat
  dest : Nat
  src : Nat
  rxtime : Nat
  fmt : Nat
deriving DecidableEq, Repr

/-- struct diag_l2_kwp6227: the driver's private per-session state. -/
structure diag_l2_kwp6227 where
  srcaddr : Nat
  dstaddr : Nat
deriving DecidableEq, Repr

/-- struct diag_l2_conn, restricted to the fields the driver reads or
writes.  The two l1flags capability bits of the attached diag_link are
flattened in.  `diag_l2_proto_data` is the possibly-null pointer to the
private session state. -/
structure diag_l2_conn where
  diag_l2_proto_data : Option diag_l2_kwp6227
  diag_l2_p3min : Nat
  diag_l2_p4min : Nat
  diag_l2_speed : Nat
  diag_l2_kb1 : Nat
  diag_l2_kb2 : Nat
  l1flags_doesfullinit : Bool
  l1flags_doesl2cksum : Bool
deriving DecidableEq, Repr

/-- Outcome of running a piece of the C code: either a defined result or
undefined behaviour (the UB the modelled code can reach: a null
session-state dereference, or freeing the indeterminate non-null reply
pointer left by the request transaction's uninitialised local). -/
inductive Res (α : Type) where
  | val : α → Res α
  | undef : Res α
deriving DecidableEq, Repr

/-- The address byte written into the frame: `own ? own : dp->field`.
The stored session state is dereferenced only when the message's own
address field is zero; a null state there is undefined behaviour. -/
def addrByte (own : Nat) (stored : Option Nat) : Res Nat :=
  if own ≠ 0 then Res.val own
  else
    match stored with
    | some a => Res.val a
    | none => Res.undef

/-- Observable outcome of dl2p_6227_send: the return value, the frame
handed to diag_l1_send (none if the physical layer was never invoked) and
the millisleep durations performed. -/
structure SendOut where
  ret : Int
  sent : Option (List Nat)
  slept : List Nat
deriving DecidableEq, Repr

/-- dl2p_6227_send.  `l1sendRv` is the value diag_l1_send would return.
The frame is `[0x80 + len + 1][dest][src][payload]` (uint8 arithmetic on
the header), with each address taken from the message when nonzero and
from the session state otherwise; the driver sleeps p3min before sending
and hands the physical layer `len + 3` bytes paced by p4min. -/
def dl2p_6227_send (conn : diag_l2_conn) (msg : diag_msg) (l1sendRv : Int) :
    Res SendOut :=
  if msg.data.length < 1 ∨ 14 < msg.data.length then
    Res.val { ret := diag_iseterr DIAG_ERR_BADLEN, sent := none, slept := [] }
  else
    match addrByte msg.dest (conn.diag_l2_proto_data.map (fun s => s.dstaddr)) with
    | Res.undef => Res.undef
    | Res.val b1 =>
      match addrByte msg.src (conn.diag_l2_proto_data.map (fun s => s.srcaddr)) with
      | Res.undef => Res.undef
      | Res.val b2 =>
        Res.val {
          ret := if l1sendRv ≠ 0 then diag_iseterr l1sendRv else 0,
          sent := some (((0x80 + msg.data.length + 1) % 256) :: b1 :: b2 :: msg.data),
          slept := [conn.diag_l2_p3min] }

/-- C conversion of a signed int to size_t (64-bit): value modulo 2^64. -/
def size_t_cast (i : Int) : Nat := (i % (2:Int) ^ 64).toNat

/-- Observable outcome of dl2p_6227_recv: the return value, the timeout
handed to diag_l1_recv, the size requested from diag_allocmsg and the
length handed to memcpy (none where the call was never reached), the
message handed to the callback, and whether diag_freemsg ran. -/
structure RecvOut where
  ret : Int
  l1timeout : Nat
  allocReq : Option Nat
  copyLen : Option Nat
  delivered : Option diag_msg
  freedMsg : Bool
deriving DecidableEq, Repr

/-- dl2p_6227_recv.  `raw` is what diag_l1_recv would produce: an error
code, or the `rv` bytes it wrote into the 18-byte stack buffer.  A
negative receive is returned unchanged; otherwise the driver requests a
message of `(size_t)(rv - 4)` payload bytes, copies that many bytes from
offset 3, stamps the receive time, takes dest from byte 1 and src from
byte 2, tags the message DIAG_FMT_FRAMED, hands it to the callback if one
was given, and frees it. -/
def dl2p_6227_recv (timeout : Nat) (raw : Except Int (List Nat))
    (allocOk : Bool) (now : Nat) (callbackPresent : Bool) : RecvOut :=
  match raw with
  | Except.error e =>
    { ret := e, l1timeout := timeout + 100, allocReq := none,
      copyLen := none, delivered := none, freedMsg := false }
  | Except.ok buf =>
    let rv : Int := buf.length
    let sz : Nat := size_t_cast (rv - 4)
    if allocOk = false then
      { ret := diag_iseterr DIAG_ERR_NOMEM, l1timeout := timeout + 100,
        allocReq := some sz, copyLen := none, delivered := none,
        freedMsg := false }
    else
      let m : diag_msg :=
        { data := (buf.drop 3).take sz, dest := buf.getD 1 0,
          src := buf.getD 2 0, rxtime := now, fmt := DIAG_FMT_FRAMED }
      { ret := 0, l1timeout := timeout + 100, allocReq := some sz,
        copyLen := some sz,
        delivered := if callbackPresent then some m else none,
        freedMsg := true }

/-- diag_dupsinglemsg: duplicate one message; returns null on allocation
failure (`dupOk = false`). -/
def diag_dupsinglemsg (dupOk : Bool) (m : diag_msg) : Option diag_msg :=
  if dupOk then some m else none

/-- dl2p_6227_request_callback: stores a duplicate of the incoming message
through the handle, overwriting whatever the handle held. -/
def dl2p_6227_request_callback (dupOk : Bool) (incoming : diag_msg) :
    Option diag_msg :=
  diag_dupsinglemsg dupOk incoming

/-- Modelled from the spec: diag_l2_send lives in diag_l2.c, which is not
under src/; the spec says the dispatch framework forwards send through the
uniform operation set to this driver's send operation. -/
def diag_l2_send (conn : diag_l2_conn) (msg : diag_msg) (l1sendRv : Int) :
    Res SendOut :=
  dl2p_6227_send conn msg l1sendRv

/-- Observable outcome of dl2p_6227_request: the returned message pointer,
the error value stored through `errval`, whether the receive phase was
entered at all, and whether the returned pointer is the indeterminate
value of the uninitialised local (the callback never ran, so `rmsg` was
never written): such a pointer is not a valid allocation and freeing it
is undefined behaviour. -/
structure RequestOut where
  rmsg : Option diag_msg
  errval : Int
  recvAttempted : Bool
  rmsgIndet : Bool
deriving DecidableEq, Repr

/-- dl2p_6227_request.  The local `rmsg` is NOT initialised in the source;
`rmsg0` is the indeterminate value it holds on entry.  The send phase goes
through diag_l2_send; on `rv < 0` the function returns null with that
error and never receives.  Otherwise it receives with a 1000 ms timeout
and the duplicate-into-handle callback: the callback overwrites `rmsg`
only when a message is delivered, so on a failed receive the function
returns the indeterminate `rmsg0` with the error in `errval`.  A null
`rmsg` after a successful receive yields an allocation error. -/
def dl2p_6227_request (conn : diag_l2_conn) (msg : diag_msg)
    (l1sendRv : Int) (raw : Except Int (List Nat)) (allocOk dupOk : Bool)
    (now : Nat) (rmsg0 : Option diag_msg) : Res RequestOut :=
  match diag_l2_send conn msg l1sendRv with
  | Res.undef => Res.undef
  | Res.val s =>
    if s.ret < 0 then
      Res.val { rmsg := none, errval := s.ret, recvAttempted := false,
                rmsgIndet := false }
    else
      let r := dl2p_6227_recv 1000 raw allocOk now true
      let rmsg : Option diag_msg :=
        match r.delivered with
        | some m => dl2p_6227_request_callback dupOk m
        | none => rmsg0
      if r.ret < 0 then
        Res.val { rmsg := rmsg, errval := r.ret, recvAttempted := true,
                  rmsgIndet := r.delivered.isNone }
      else if rmsg.isNone then
        Res.val { rmsg := none, errval := DIAG_ERR_NOMEM,
                  recvAttempted := true, rmsgIndet := r.delivered.isNone }
      else
        Res.val { rmsg := rmsg, errval := 0, recvAttempted := true,
                  rmsgIndet := r.delivered.isNone }

/-- Observable outcome of dl2p_6227_startcomms: the return value, the
final session-state pointer in the connection, whether diag_calloc was
attempted, whether the allocated state was freed on the error path, the
warning about a non-0x13 tester address, the final key bytes and speed in
the connection, and the parity-encoded address handed to the slow-init
ioctl (none if never reached). -/
structure StartOut where
  ret : Int
  protoData : Option diag_l2_kwp6227
  allocAttempted : Bool
  freedDp : Bool
  warnedTester : Bool
  kb1 : Nat
  kb2 : Nat
  speed : Nat
  initbusAddr : Option Nat
deriving DecidableEq, Repr

/-- dl2p_6227_startcomms.  Environment: `callocOk` is whether diag_calloc
succeeds, `setspeedRv` and `initbusRv` are the two ioctl results, and
`kb1rep`/`kb2rep` are the key bytes the bus layer would report after
slow-init — the source never reads them (its comment: the L0 does not
tell us what key bytes it got, assume D3 B0) and instead assigns 0xd3 and
0xb0 to the connection before comparing those same fields against 0xd3
and 0xb0, so the wrong-keybytes branch is modelled exactly as that dead
comparison.  Every error path after the allocation frees the state and
nulls the connection's pointer.  The input-flush ioctl and the fixed
300 ms settle sleep are not observable in any claim and are elided. -/
def dl2p_6227_startcomms (conn : diag_l2_conn) (flags : Nat)
    (bitrate : Nat) (target : Nat) (source : Nat) (callocOk : Bool)
    (setspeedRv : Int) (initbusRv : Int) (kb1rep : Nat) (kb2rep : Nat) :
    StartOut :=
  if ¬(conn.l1flags_doesfullinit && conn.l1flags_doesl2cksum) then
    { ret := diag_iseterr DIAG_ERR_PROTO_NOTSUPP,
      protoData := conn.diag_l2_proto_data, allocAttempted := false,
      freedDp := false, warnedTester := false, kb1 := conn.diag_l2_kb1,
      kb2 := conn.diag_l2_kb2, speed := conn.diag_l2_speed,
      initbusAddr := none }
  else if flags &&& DIAG_L2_TYPE_INITMASK ≠ DIAG_L2_TYPE_SLOWINIT then
    { ret := diag_iseterr DIAG_ERR_INIT_NOTSUPP,
      protoData := conn.diag_l2_proto_data, allocAttempted := false,
      freedDp := false, warnedTester := false, kb1 := conn.diag_l2_kb1,
      kb2 := conn.diag_l2_kb2, speed := conn.diag_l2_speed,
      initbusAddr := none }
  else if ¬callocOk then
    { ret := diag_iseterr DIAG_ERR_NOMEM,
      protoData := conn.diag_l2_proto_data, allocAttempted := true,
      freedDp := false, warnedTester := false, kb1 := conn.diag_l2_kb1,
      kb2 := conn.diag_l2_kb2, speed := conn.diag_l2_speed,
      initbusAddr := none }
  else
    let dp : diag_l2_kwp6227 := { srcaddr := source, dstaddr := target }
    let warned := source ≠ 0x13
    let bitrate1 := if bitrate = 0 then 10400 else bitrate
    if setspeedRv ≠ 0 then
      { ret := diag_iseterr setspeedRv, protoData := none,
        allocAttempted := true, freedDp := true, warnedTester := warned,
        kb1 := conn.diag_l2_kb1, kb2 := conn.diag_l2_kb2,
        speed := bitrate1, initbusAddr := none }
    else
      let inAddr := with_parity target diag_par_o
      if initbusRv < 0 then
        { ret := diag_iseterr initbusRv, protoData := none,
          allocAttempted := true, freedDp := true, warnedTester := warned,
          kb1 := conn.diag_l2_kb1, kb2 := conn.diag_l2_kb2,
          speed := bitrate1, initbusAddr := some inAddr }
      else
        let kb1new : Nat := 0xd3
        let kb2new : Nat := 0xb0
        if kb1new ≠ 0xd3 ∨ kb2new ≠ 0xb0 then
          { ret := diag_iseterr DIAG_ERR_WRONGKB, protoData := none,
            allocAttempted := true, freedDp := true,
            warnedTester := warned, kb1 := kb1new, kb2 := kb2new,
            speed := bitrate1, initbusAddr := some inAddr }
        else
          { ret := 0, protoData := some dp, allocAttempted := true,
            freedDp := false, warnedTester := warned, kb1 := kb1new,
            kb2 := kb2new, speed := bitrate1, initbusAddr := some inAddr }

/-- Observable outcome of dl2p_6227_stopcomms: the return value, the
request's result and error value, whether the 5-second wait ran, whether
the received reply was freed, whether the session state was freed, and
the final session-state pointer in the connection. -/
structure StopOut where
  ret : Int
  rxmsg : Option diag_msg
  errval : Int
  slept5000 : Bool
  freedRx : Bool
  freedProtoData : Bool
  protoData : Option diag_l2_kwp6227
deriving DecidableEq, Repr

/-- dl2p_6227_stopcomms.  Builds the one-byte 0xa0 stop message with zero
(default) addresses and runs it through dl2p_6227_request with the given
environment; on a null or errored reply it warns and sleeps 5000 ms; a
non-null reply pointer is then freed — when that pointer is the
indeterminate value of the request's uninitialised local rather than a
real allocation, the free is undefined behaviour, and it happens before
the session-state release and the return.  Otherwise the session state is
freed and nulled only if the stored pointer is non-null and the return
value is 0. -/
def dl2p_6227_stopcomms (conn : diag_l2_conn) (l1sendRv : Int)
    (raw : Except Int (List Nat)) (allocOk dupOk : Bool) (now : Nat)
    (rmsg0 : Option diag_msg) : Res StopOut :=
  let msg : diag_msg := { data := [0xa0], dest := 0, src := 0,
                          rxtime := 0, fmt := 0 }
  match dl2p_6227_request conn msg l1sendRv raw allocOk dupOk now rmsg0 with
  | Res.undef => Res.undef
  | Res.val r =>
    if r.rmsgIndet && r.rmsg.isSome then Res.undef
    else
      Res.val {
        ret := 0,
        rxmsg := r.rmsg,
        errval := r.errval,
        slept5000 := r.rmsg.isNone || decide (r.errval ≠ 0),
        freedRx := r.rmsg.isSome,
        freedProtoData := conn.diag_l2_proto_data.isSome,
        protoData := none }

/-- Observable outcome of dl2p_6227_timeout (keepalive): the request's
outcome and whether a received reply was freed.  It returns nothing. -/
structure TimeoutOut where
  rxmsg : Option diag_msg
  freedRx : Bool
deriving DecidableEq, Repr

/-- dl2p_6227_timeout: sends the one-byte 0xa1 keepalive with default
addresses through dl2p_6227_request, frees any non-null reply — undefined
behaviour when that pointer is the request's indeterminate local value —
and reports nothing. -/
def dl2p_6227_timeout (conn : diag_l2_conn) (l1sendRv : Int)
    (raw : Except Int (List Nat)) (allocOk dupOk : Bool) (now : Nat)
    (rmsg0 : Option diag_msg) : Res TimeoutOut :=
  let msg : diag_msg := { data := [0xa1], dest := 0, src := 0,
                          rxtime := 0, fmt := 0 }
  match dl2p_6227_request conn msg l1sendRv raw allocOk dupOk now rmsg0 with
  | Res.undef => Res.undef
  | Res.val r =>
    if r.rmsgIndet && r.rmsg.isSome then Res.undef
    else Res.val { rxmsg := r.rmsg, freedRx := r.rmsg.isSome }

/-- Whether a stop-session outcome freed the session state (an undefined
outcome never reaches the free). -/
def stopFreed : Res StopOut → Bool
  | Res.val r => r.freedProtoData
  | Res.undef => false

/-- The session-state pointer the connection holds after a stop-session
outcome (an undefined outcome is modelled as leaving it null-irrelevant;
it is only ever read off a defined first call). -/
def stopProto : Res StopOut → Option diag_l2_kwp6227
  | Res.val r => r.protoData
  | Res.undef => none

/-- A live connection used by the concrete witnesses: session state with
tester source 0x13 and target 0x10, p3min 55 ms, both capabilities. -/
def connW : diag_l2_conn :=
  { diag_l2_proto_data := some { srcaddr := 0x13, dstaddr := 0x10 },
    diag_l2_p3min := 55, diag_l2_p4min := 5, diag_l2_speed := 10400,
    diag_l2_kb1 := 0xd3, diag_l2_kb2 := 0xb0,
    l1flags_doesfullinit := true, l1flags_doesl2cksum := true }

/-- A fresh connection before session start: no session state yet, both
capabilities present. -/
def conn0 : diag_l2_conn :=
  { diag_l2_proto_data := none, diag_l2_p3min := 0, diag_l2_p4min := 0,
    diag_l2_speed := 0, diag_l2_kb1 := 0, diag_l2_kb2 := 0,
    l1flags_doesfullinit := true, l1flags_doesl2cksum := true }

/-- A connection on an interface that cannot do the full slow-init
handshake itself. -/
def connNoCap : diag_l2_conn :=
  { conn0 with l1flags_doesfullinit := false }

/-- A two-byte outbound message with unset (zero) addresses. -/
def msgW : diag_msg :=
  { data := [0x01, 0x02], dest := 0, src := 0, rxtime := 0, fmt := 0 }

/-- A 16-byte outbound message (payload too long for the protocol). -/
def msg16 : diag_msg :=
  { data := List.replicate 16 0x41, dest := 0x10, src := 0x13,
    rxtime := 0, fmt := 0 }

/-- A junk message standing for the indeterminate value the uninitialised
local `rmsg` of dl2p_6227_request may hold on entry. -/
def junkMsg : diag_msg :=
  { data := [0x5A], dest := 0x44, src := 0x55, rxtime := 9, fmt := 0 }

/-- A well-formed 5-byte raw reply frame: header 0x82, dest 0x13,
src 0x10, one payload byte 0x7B, checksum 0xFF. -/
def goodRaw : List Nat := [0x82, 0x13, 0x10, 0x7B, 0xFF]

/-- Header-byte arithmetic: for an encoded length below 15 the uint8 sum
0x80 + L + 1 equals the bitwise form 0x80 | (L + 1). -/
theorem header_byte_eq : ∀ L < 15, (0x80 + L + 1) % 256 = 0x80 ||| (L + 1) := by
  decide

/-- A Res outcome differs from undef exactly when it is a defined value. -/
theorem res_ne_undef_iff {α : Type} (r : Res α) :
    r ≠ Res.undef ↔ ∃ v, r = Res.val v := by
  cases r <;> simp

/-- C3: for every outbound message whose payload length lies outside
[1,14] (0 or at least 15), send fails with the length-violation error,
performs no sleep and never hands a frame to the physical layer. -/
theorem send_rejects_bad_length (conn : diag_l2_conn) (msg : diag_msg)
    (l1sendRv : Int)
    (h : msg.data.length = 0 ∨ 15 ≤ msg.data.length) :
    dl2p_6227_send conn msg l1sendRv =
      Res.val { ret := DIAG_ERR_BADLEN, sent := none, slept := [] } := by
  have hc : msg.data.length < 1 ∨ 14 < msg.data.length := by omega
  simp only [dl2p_6227_send]
  rw [if_pos hc]
  rfl

/-- Witness for C3: a 16-byte payload is rejected with the
length-violation error and the transport is untouched. -/
theorem send_rejects_bad_length_witness :
    dl2p_6227_send connW msg16 0 =
      Res.val { ret := DIAG_ERR_BADLEN, sent := none, slept := [] } :=
  send_rejects_bad_length connW msg16 0 (by decide)

set_option maxRecDepth 4000 in
/-- C9: for every byte and for both the odd and the even parity mode,
with_parity keeps the low 7 bits of the input and sets the top bit to the
parity of those 7 bits seeded by 1 for odd and 0 for even; consequently
the odd and even results for the same byte differ exactly in the top
bit. -/
theorem with_parity_spec : ∀ c < 256,
    (with_parity c diag_par_o &&& 0x7f = c &&& 0x7f ∧
     with_parity c diag_par_e &&& 0x7f = c &&& 0x7f) ∧
    (with_parity c diag_par_o >>> 7 = paritySeed diag_par_o ^^^ parity7 c ∧
     with_parity c diag_par_e >>> 7 = paritySeed diag_par_e ^^^ parity7 c) ∧
    with_parity c diag_par_o ^^^ with_parity c diag_par_e = 0x80 := by
  decide

/-- Witness for C9 at the byte 0x42 of the spec's scenario. -/
theorem with_parity_spec_witness :
    (with_parity 0x42 diag_par_o &&& 0x7f = 0x42 &&& 0x7f ∧
     with_parity 0x42 diag_par_e &&& 0x7f = 0x42 &&& 0x7f) ∧
    (with_parity 0x42 diag_par_o >>> 7 = paritySeed diag_par_o ^^^ parity7 0x42 ∧
     with_parity 0x42 diag_par_e >>> 7 = paritySeed diag_par_e ^^^ parity7 0x42) ∧
    with_parity 0x42 diag_par_o ^^^ with_parity 0x42 diag_par_e = 0x80 :=
  with_parity_spec 0x42 (by decide)

/-- C2: for every successful raw receive of rv bytes with 4 ≤ rv ≤ 18
(the stack buffer holds at most 18), decode returns 0 and produces an
allocated message whose payload is exactly the rv − 4 bytes from raw
offset 3, whose dest is raw byte 1 and src raw byte 2, stamped with the
receive time, tagged frame-delimited, handed to the callback, and then
freed. -/
theorem recv_decodes_frame (buf : List Nat) (timeout now : Nat)
    (h4 : 4 ≤ buf.length) (h18 : buf.length ≤ 18) :
    dl2p_6227_recv timeout (Except.ok buf) true now true =
      { ret := 0, l1timeout := timeout + 100,
        allocReq := some (buf.length - 4), copyLen := some (buf.length - 4),
        delivered := some { data := (buf.drop 3).take (buf.length - 4),
                            dest := buf.getD 1 0, src := buf.getD 2 0,
                            rxtime := now, fmt := DIAG_FMT_FRAMED },
        freedMsg := true } ∧
    ((buf.drop 3).take (buf.length - 4)).length = buf.length - 4 := by
  have hs : size_t_cast ((buf.length : Int) - 4) = buf.length - 4 := by
    unfold size_t_cast
    have h2 : (2 : Int) ^ 64 = 18446744073709551616 := by norm_num
    rw [h2]
    omega
  constructor
  · simp [dl2p_6227_recv, hs]
  · simp only [List.length_take, List.length_drop]
    omega

/-- Witness for C2, the spec's scenario: a successful 7-byte raw read
decodes to a 3-byte payload with dest 0x13 and src 0x10. -/
theorem recv_decodes_frame_witness :
    dl2p_6227_recv 5 (Except.ok [0x84, 0x13, 0x10, 0x7B, 0xAA, 0x55, 0xFF])
        true 77 true =
      { ret := 0, l1timeout := 105, allocReq := some 3, copyLen := some 3,
        delivered := some { data := [0x7B, 0xAA, 0x55], dest := 0x13,
                            src := 0x10, rxtime := 77,
                            fmt := DIAG_FMT_FRAMED },
        freedMsg := true } ∧
    ([0x7B, 0xAA, 0x55] : List Nat).length = 3 := by
  have h := recv_decodes_frame [0x84, 0x13, 0x10, 0x7B, 0xAA, 0x55, 0xFF]
      5 77 (by decide) (by decide)
  simpa using h

/-- C10: decode has no guard for short successful reads: for every
successful raw receive of at most 3 bytes, the payload size is the int
rv − 4 converted to size_t, which wraps to 2^64 − 4 + rv — at least
2^64 − 4, near the maximum size_t — and that wrapped value is used as
both the allocation size and the memcpy length. -/
theorem recv_short_read_wraps (buf : List Nat) (timeout now : Nat)
    (h : buf.length ≤ 3) :
    (dl2p_6227_recv timeout (Except.ok buf) true now true).allocReq =
        some (2 ^ 64 - 4 + buf.length) ∧
    (dl2p_6227_recv timeout (Except.ok buf) true now true).copyLen =
        some (2 ^ 64 - 4 + buf.length) ∧
    2 ^ 64 - 4 ≤ 2 ^ 64 - 4 + buf.length := by
  have hs : size_t_cast ((buf.length : Int) - 4) = 2 ^ 64 - 4 + buf.length := by
    unfold size_t_cast
    have h2 : (2 : Int) ^ 64 = 18446744073709551616 := by norm_num
    have h3 : (2 : Nat) ^ 64 = 18446744073709551616 := by norm_num
    rw [h2, h3]
    omega
  refine ⟨?_, ?_, Nat.le_add_right _ _⟩ <;> simp [dl2p_6227_recv, hs]

/-- Witness for C10: a 1-byte successful read requests an allocation of
2^64 − 3 bytes. -/
theorem recv_short_read_wraps_witness :
    (dl2p_6227_recv 0 (Except.ok [0xAA]) true 0 true).allocReq =
        some (2 ^ 64 - 4 + [(0xAA : Nat)].length) ∧
    (dl2p_6227_recv 0 (Except.ok [0xAA]) true 0 true).copyLen =
        some (2 ^ 64 - 4 + [(0xAA : Nat)].length) ∧
    2 ^ 64 - 4 ≤ 2 ^ 64 - 4 + [(0xAA : Nat)].length :=
  recv_short_read_wraps [0xAA] 0 0 (by decide)

/-- C1: for every outbound message with payload length in [1,14] sent on
a live session, the frame handed to the physical layer is the header byte
0x80 | (L + 1), then the destination, then the source, then the L payload
bytes in order; each address comes from the message's own field when that
field is nonzero and from the stored session state otherwise; the return
value propagates the transport result. -/
theorem send_builds_frame (conn : diag_l2_conn) (dp : diag_l2_kwp6227)
    (msg : diag_msg) (l1sendRv : Int)
    (hdp : conn.diag_l2_proto_data = some dp)
    (h1 : 1 ≤ msg.data.length) (h14 : msg.data.length ≤ 14) :
    dl2p_6227_send conn msg l1sendRv =
      Res.val { ret := if l1sendRv ≠ 0 then l1sendRv else 0,
                sent := some ((0x80 ||| (msg.data.length + 1)) ::
                              (if msg.dest ≠ 0 then msg.dest else dp.dstaddr) ::
                              (if msg.src ≠ 0 then msg.src else dp.srcaddr) ::
                              msg.data),
                slept := [conn.diag_l2_p3min] } := by
  have hg : ¬(msg.data.length < 1 ∨ 14 < msg.data.length) := by omega
  have hh : (0x80 + msg.data.length + 1) % 256 = 0x80 ||| (msg.data.length + 1) :=
    header_byte_eq _ (by omega)
  by_cases hd : msg.dest ≠ 0 <;> by_cases hsrc : msg.src ≠ 0 <;>
    simp [dl2p_6227_send, addrByte, hdp, hg, hd, hsrc, diag_iseterr, hh] <;>
    exact ⟨fun he => by rw [he] at h1; simp at h1, h14⟩

/-- Witness for C1: a 2-byte payload with unset addresses yields the frame
[0x83, 0x10, 0x13, 0x01, 0x02] — header 0x80 | 3, then the session's
stored destination 0x10 and source 0x13 — after the p3min sleep. -/
theorem send_builds_frame_witness :
    dl2p_6227_send connW msgW 0 =
      Res.val { ret := 0, sent := some [0x83, 0x10, 0x13, 0x01, 0x02],
                slept := [55] } := by
  have h := send_builds_frame connW { srcaddr := 0x13, dstaddr := 0x10 }
      msgW 0 rfl (by decide) (by decide)
  rw [h]
  decide

/-- C5 is a code bug, evaluated here at a failing input: the local `rmsg`
of dl2p_6227_request is never initialised, and on a receive-phase failure
the callback has not run, so the function returns whatever `rmsg` held —
here the non-null junk value — together with the receive error in
`errval`, where the documented contract returns null with the error.  The
send phase succeeds and the receive phase fails with a transport
timeout. -/
theorem request_returns_uninitialized_on_recv_failure :
    dl2p_6227_request connW msgW 0 (Except.error DIAG_ERR_TIMEOUT)
        true true 0 (some junkMsg) =
      Res.val { rmsg := some junkMsg, errval := DIAG_ERR_TIMEOUT,
                recvAttempted := true, rmsgIndet := true } ∧
    some junkMsg ≠ (none : Option diag_msg) := by
  decide

/-- C4 counterexample: with both capabilities, slow-init mode, and every
environment step succeeding, a run in which the bus layer would report
the key-byte pair (0x55, 0xAA) — not the accepted signature (0xD3, 0xB0)
— still returns success and leaves an allocated session state, because
the source overwrites the connection's key bytes with the constants 0xD3
and 0xB0 before comparing those same fields against 0xD3 and 0xB0;
start-session never fails with the wrong-keybytes error. -/
theorem startcomms_wrong_keybytes_counterexample :
    ¬((0x55 : Nat) = 0xd3 ∧ (0xaa : Nat) = 0xb0) ∧
    (dl2p_6227_startcomms conn0 DIAG_L2_TYPE_SLOWINIT 0 0x10 0x13
        true 0 0 0x55 0xaa).ret = 0 ∧
    (dl2p_6227_startcomms conn0 DIAG_L2_TYPE_SLOWINIT 0 0x10 0x13
        true 0 0 0x55 0xaa).protoData =
      some { srcaddr := 0x13, dstaddr := 0x10 } := by
  decide

/-- C4 amended: start-session ignores whatever key-byte pair the bus
layer reports; after a successful slow-init it unconditionally records
(0xD3, 0xB0) as the connection's key bytes, the wrong-keybytes comparison
always passes, and the call succeeds with live session state — for every
reported pair. -/
theorem startcomms_ignores_reported_keybytes (conn : diag_l2_conn)
    (flags bitrate target source kb1rep kb2rep : Nat)
    (hfull : conn.l1flags_doesfullinit = true)
    (hck : conn.l1flags_doesl2cksum = true)
    (hmode : flags &&& DIAG_L2_TYPE_INITMASK = DIAG_L2_TYPE_SLOWINIT) :
    (dl2p_6227_startcomms conn flags bitrate target source
        true 0 0 kb1rep kb2rep).ret = 0 ∧
    (dl2p_6227_startcomms conn flags bitrate target source
        true 0 0 kb1rep kb2rep).kb1 = 0xd3 ∧
    (dl2p_6227_startcomms conn flags bitrate target source
        true 0 0 kb1rep kb2rep).kb2 = 0xb0 ∧
    (dl2p_6227_startcomms conn flags bitrate target source
        true 0 0 kb1rep kb2rep).protoData =
      some { srcaddr := source, dstaddr := target } := by
  simp [dl2p_6227_startcomms, hfull, hck, hmode]

/-- Witness for the amended C4: a reported pair (0x12, 0x34) is ignored
and the session starts successfully with key bytes (0xD3, 0xB0). -/
theorem startcomms_ignores_reported_keybytes_witness :
    (dl2p_6227_startcomms conn0 0 0 0x10 0x13 true 0 0 0x12 0x34).ret = 0 ∧
    (dl2p_6227_startcomms conn0 0 0 0x10 0x13 true 0 0 0x12 0x34).kb1 = 0xd3 ∧
    (dl2p_6227_startcomms conn0 0 0 0x10 0x13 true 0 0 0x12 0x34).kb2 = 0xb0 ∧
    (dl2p_6227_startcomms conn0 0 0 0x10 0x13 true 0 0 0x12 0x34).protoData =
      some { srcaddr := 0x13, dstaddr := 0x10 } :=
  startcomms_ignores_reported_keybytes conn0 0 0 0x10 0x13 0x12 0x34
    rfl rfl (by decide)

/-- C6: for every start-session call on an interface lacking either the
full slow-init capability or the transmit-checksum capability, the call
fails with the capability-unsupported error, never attempts to allocate
session state, and leaves the connection untouched. -/
theorem startcomms_requires_capabilities (conn : diag_l2_conn)
    (flags bitrate target source : Nat) (callocOk : Bool)
    (setspeedRv initbusRv : Int) (kb1rep kb2rep : Nat)
    (h : conn.l1flags_doesfullinit = false ∨
         conn.l1flags_doesl2cksum = false) :
    dl2p_6227_startcomms conn flags bitrate target source callocOk
        setspeedRv initbusRv kb1rep kb2rep =
      { ret := DIAG_ERR_PROTO_NOTSUPP,
        protoData := conn.diag_l2_proto_data, allocAttempted := false,
        freedDp := false, warnedTester := false,
        kb1 := conn.diag_l2_kb1, kb2 := conn.diag_l2_kb2,
        speed := conn.diag_l2_speed, initbusAddr := none } := by
  rcases h with h | h <;>
    simp [dl2p_6227_startcomms, h, diag_iseterr]

/-- Witness for C6: an interface without the full-init capability is
rejected with the capability-unsupported error and no allocation. -/
theorem startcomms_requires_capabilities_witness :
    dl2p_6227_startcomms connNoCap 0 0 0x10 0x13 true 0 0 0 0 =
      { ret := DIAG_ERR_PROTO_NOTSUPP, protoData := none,
        allocAttempted := false, freedDp := false, warnedTester := false,
        kb1 := 0, kb2 := 0, speed := 0, initbusAddr := none } := by
  have h := startcomms_requires_capabilities connNoCap 0 0 0x10 0x13
      true 0 0 0 0 (Or.inl rfl)
  rw [h]
  decide

/-- On a live session (non-null state) send never reaches the null
dereference: its outcome is always defined. -/
theorem send_ne_undef (conn : diag_l2_conn) (dp : diag_l2_kwp6227)
    (msg : diag_msg) (l1sendRv : Int)
    (hdp : conn.diag_l2_proto_data = some dp) :
    dl2p_6227_send conn msg l1sendRv ≠ Res.undef := by
  simp only [dl2p_6227_send]
  split
  · simp
  · by_cases hd : msg.dest ≠ 0 <;> by_cases hsrc : msg.src ≠ 0 <;>
      simp [addrByte, hdp, hd, hsrc]

/-- On a live session the request transaction always has a defined
outcome. -/
theorem request_ne_undef (conn : diag_l2_conn) (dp : diag_l2_kwp6227)
    (msg : diag_msg) (l1sendRv : Int) (raw : Except Int (List Nat))
    (allocOk dupOk : Bool) (now : Nat) (rmsg0 : Option diag_msg)
    (hdp : conn.diag_l2_proto_data = some dp) :
    dl2p_6227_request conn msg l1sendRv raw allocOk dupOk now rmsg0 ≠
      Res.undef := by
  have hsend := send_ne_undef conn dp msg l1sendRv hdp
  rw [res_ne_undef_iff] at hsend
  obtain ⟨s, hs⟩ := hsend
  simp only [dl2p_6227_request, diag_l2_send, hs]
  split_ifs <;> simp

/-- With a null session state and a message asking for the default
(zero) addresses, the stop transaction dereferences the null state in the
send path: the whole stop call is undefined. -/
theorem stopcomms_undef_of_dead (conn : diag_l2_conn) (l1sendRv : Int)
    (raw : Except Int (List Nat)) (allocOk dupOk : Bool) (now : Nat)
    (rmsg0 : Option diag_msg)
    (hdp : conn.diag_l2_proto_data = none) :
    dl2p_6227_stopcomms conn l1sendRv raw allocOk dupOk now rmsg0 =
      Res.undef := by
  simp [dl2p_6227_stopcomms, dl2p_6227_request, diag_l2_send,
        dl2p_6227_send, addrByte, hdp]

/-- C7 is broken by the same uninitialised-local bug as the request
transaction, evaluated here at a failing input: on a live session whose
stop transaction gets no reply (the send succeeds, the raw receive fails
with a transport timeout) while the request's uninitialised local happens
to hold a non-null value, stop-session reaches diag_freemsg on that
indeterminate pointer — undefined behaviour before the session-state
release and the return — so it does not return success and null the
reference as the claim states.  (When the receive phase delivers a reply,
or the indeterminate value is null, the code does return 0, sleep the
fixed 5 seconds on the no-reply path, and null the reference.) -/
theorem stopcomms_undef_on_failed_transaction :
    dl2p_6227_stopcomms connW 0 (Except.error DIAG_ERR_TIMEOUT)
        true true 0 (some junkMsg) = Res.undef := by
  decide

/-- C8 counterexample: two successive stop-session calls on the same
connection, with a well-formed reply available each time.  The first call
succeeds, frees the session state and nulls the reference; but the second
call does not run to a guarded no-op as the claim states: before the
release guard is ever reached, building the stop frame's default
addresses dereferences the now-null session state inside the send path —
undefined behaviour (Res.undef), not a defined call that "finds the
reference null and performs no release". -/
theorem stopcomms_twice_counterexample :
    dl2p_6227_stopcomms connW 0 (Except.ok goodRaw) true true 0 none =
      Res.val { ret := 0,
                rxmsg := some { data := [0x7B], dest := 0x13, src := 0x10,
                                rxtime := 0, fmt := DIAG_FMT_FRAMED },
                errval := 0, slept5000 := false, freedRx := true,
                freedProtoData := true, protoData := none } ∧
    dl2p_6227_stopcomms { connW with diag_l2_proto_data := none } 0
        (Except.ok goodRaw) true true 0 none = Res.undef := by
  decide

/-- C8 amended: when the first stop-session call on a live session runs
to completion (a defined outcome: its stop transaction either obtains a
reply or leaves the reply pointer null, so the reply free is defined —
otherwise the first call already aborts in the indeterminate-reply free),
the session state is released exactly once across the two calls: the
first call frees it and nulls the reference, and the second call never
reaches a second free; but the second call is not a clean guarded no-op:
it aborts with a null session-state dereference in the send path
(undefined behaviour) before the release guard runs. -/
theorem stopcomms_twice_single_free (conn : diag_l2_conn)
    (dp : diag_l2_kwp6227) (l1a l1b : Int)
    (rawa rawb : Except Int (List Nat)) (aa da ab db : Bool)
    (nowa nowb : Nat) (r0a r0b : Option diag_msg)
    (hdp : conn.diag_l2_proto_data = some dp)
    (hdef : dl2p_6227_stopcomms conn l1a rawa aa da nowa r0a ≠
      Res.undef) :
    stopFreed (dl2p_6227_stopcomms conn l1a rawa aa da nowa r0a) = true ∧
    stopProto (dl2p_6227_stopcomms conn l1a rawa aa da nowa r0a) = none ∧
    dl2p_6227_stopcomms
        { conn with diag_l2_proto_data :=
            stopProto (dl2p_6227_stopcomms conn l1a rawa aa da nowa r0a) }
        l1b rawb ab db nowb r0b = Res.undef ∧
    stopFreed (dl2p_6227_stopcomms
        { conn with diag_l2_proto_data :=
            stopProto (dl2p_6227_stopcomms conn l1a rawa aa da nowa r0a) }
        l1b rawb ab db nowb r0b) = false := by
  have hreq := request_ne_undef conn dp
      { data := [0xa0], dest := 0, src := 0, rxtime := 0, fmt := 0 }
      l1a rawa aa da nowa r0a hdp
  rw [res_ne_undef_iff] at hreq
  obtain ⟨q, hq⟩ := hreq
  have hcond : (q.rmsgIndet && q.rmsg.isSome) ≠ true := by
    intro hc
    apply hdef
    simp only [dl2p_6227_stopcomms, hq]
    rw [if_pos hc]
  have hfirst : dl2p_6227_stopcomms conn l1a rawa aa da nowa r0a =
      Res.val { ret := 0, rxmsg := q.rmsg, errval := q.errval,
                slept5000 := q.rmsg.isNone || decide (q.errval ≠ 0),
                freedRx := q.rmsg.isSome,
                freedProtoData := conn.diag_l2_proto_data.isSome,
                protoData := none } := by
    simp only [dl2p_6227_stopcomms, hq]
    rw [if_neg hcond]
  have hsecond := stopcomms_undef_of_dead
      { conn with diag_l2_proto_data :=
          stopProto (dl2p_6227_stopcomms conn l1a rawa aa da nowa r0a) }
      l1b rawb ab db nowb r0b (by simp [hfirst, stopProto])
  refine ⟨?_, ?_, hsecond, ?_⟩
  · simp [hfirst, stopFreed, hdp]
  · simp [hfirst, stopProto]
  · simp [hsecond, stopFreed]

/-- Witness for the amended C8: concrete two successive stop calls on a
live connection with a reply available (so the first call's outcome is
defined); one free, then an undefined second call. -/
theorem stopcomms_twice_single_free_witness :
    stopFreed (dl2p_6227_stopcomms connW 0 (Except.ok goodRaw)
        true true 0 none) = true ∧
    stopProto (dl2p_6227_stopcomms connW 0 (Except.ok goodRaw)
        true true 0 none) = none ∧
    dl2p_6227_stopcomms
        { connW with diag_l2_proto_data :=
            stopProto (dl2p_6227_stopcomms connW 0 (Except.ok goodRaw)
              true true 0 none) }
        0 (Except.ok goodRaw) true true 0 none = Res.undef ∧
    stopFreed (dl2p_6227_stopcomms
        { connW with diag_l2_proto_data :=
            stopProto (dl2p_6227_stopcomms connW 0 (Except.ok goodRaw)
              true true 0 none) }
        0 (Except.ok goodRaw) true true 0 none) = false :=
  stopcomms_twice_single_free connW { srcaddr := 0x13, dstaddr := 0x10 }
    0 0 (Except.ok goodRaw) (Except.ok goodRaw) true true true true
    0 0 none none rfl (by decide)
